import Mathlib

/-!
Shallow embedding of the multi-user countdown-timer server (`src/server.js`).

The server keeps a global list `countdownItems` of countdown items plus a
counter `nextId`, mutated by socket handlers (`add-countdown`,
`remove-countdown`, `clear-all`, `set-user-info`), by a periodic expiry
sweeper, and by the snapshot load/save functions (`loadData`/`saveData`).
JavaScript numbers are modelled as rationals `ℚ`; the arithmetic the server
performs (`+`, `-`, `*`) is modelled by `numAdd`/`numSub`/`numMul` below,
which are definitionally kernel-computable (via `mkRat` on numerator and
denominator) and are proved equal to Mathlib's field operations on `ℚ`.
Side effects (socket emits and file writes) are modelled as an explicit
`Emission` list returned by each handler.
-/

set_option maxRecDepth 4000

namespace CountdownServer

/-- Addition of JS numbers, kernel-computable; equals `a + b` (see `numAdd_eq`). -/
def numAdd (a b : ℚ) : ℚ := mkRat (a.num * b.den + b.num * a.den) (a.den * b.den)

/-- Subtraction of JS numbers, kernel-computable; equals `a - b` (see `numSub_eq`). -/
def numSub (a b : ℚ) : ℚ := mkRat (a.num * b.den - b.num * a.den) (a.den * b.den)

/-- Multiplication of JS numbers, kernel-computable; equals `a * b` (see `numMul_eq`). -/
def numMul (a b : ℚ) : ℚ := mkRat (a.num * b.num) (a.den * b.den)

/-- A countdown item as built by the `add-countdown` handler
(`src/server.js` lines 164-173) and stored in `countdownItems`. -/
structure CountdownItem where
  id : ℚ
  x : ℚ
  y : ℚ
  originalDuration : ℚ
  endTime : ℚ
  createdBy : String
  createdByColor : String
  createdAt : ℚ
deriving DecidableEq

/-- The persisted file contents (`data.json`): the full item list and the
next-id counter (`src/server.js` lines 64-69; `lastUpdated` and
`totalCreated` are derived display fields and are not modelled). -/
structure SavedFile where
  countdowns : List CountdownItem
  nextId : ℚ
deriving DecidableEq

/-- The registry state: the globals `countdownItems` and `nextId`
(`src/server.js` lines 27-28). -/
structure ServerState where
  countdownItems : List CountdownItem
  nextId : ℚ
deriving DecidableEq

/-- The `{name, color}` payload of a `set-user-info` request, and of the
optional `user` field of an `add-countdown` request. -/
structure UserInfo where
  name : String
  color : String
deriving DecidableEq

/-- Per-connection session record `socket.user` (`src/server.js` lines 92-98;
the `connected`/`joinTime` bookkeeping fields are not modelled). -/
structure SessionUser where
  id : String
  name : String
  color : String
deriving DecidableEq

/-- Payload of an `add-countdown` request (`src/server.js` line 128). -/
structure AddRequest where
  x : ℚ
  y : ℚ
  minutes : ℚ
  seconds : ℚ
  user : Option UserInfo
deriving DecidableEq

/-- The socket events the server emits. -/
inductive ServerEvent where
  | countdownList (items : List CountdownItem)
  | countdownAdded (item : CountdownItem)
  | countdownRemoved (id : ℚ)
  | countdownsCleared
  | userJoined (name color id : String)
  | errorReply (message : String) (duplicateId : Option ℚ)
deriving DecidableEq

/-- A side effect of a handler: an emit to the requesting socket only
(`socket.emit`), to every other socket (`socket.broadcast.emit`), to all
sockets (`io.emit`), or a persistence write (`saveData`, i.e.
`fs.writeFile` of the serialized registry). -/
inductive Emission where
  | toSender (e : ServerEvent)
  | toOthers (e : ServerEvent)
  | toAll (e : ServerEvent)
  | save (f : SavedFile)
deriving DecidableEq

/-- `item.endTime > now`: the item is active (`src/server.js` line 107 etc.). -/
def isActive (now : ℚ) (item : CountdownItem) : Bool := decide (now < item.endTime)

/-- `countdownItems.filter(item => item.endTime > Date.now())`
(`src/server.js` lines 107, 121, 146, 248, 259). -/
def activeCountdowns (items : List CountdownItem) (now : ℚ) : List CountdownItem :=
  items.filter (isActive now)

/-- `padStart(2, '0')` as applied to the seconds digits. -/
def padTwo (s : String) : String := if s.length < 2 then "0" ++ s else s

/-- `Math.floor(a / b)` for a positive integer divisor `b`. -/
def divFloorBy (a : ℚ) (b : ℕ) : ℤ := Rat.floor (mkRat a.num (a.den * b))

/-- `a % b` on a non-negative JS number `a` and positive integer `b`. -/
def modBy (a : ℚ) (b : ℕ) : ℚ := numSub a (numMul (b : ℚ) ((divFloorBy a b : ℤ) : ℚ))

/-- The remaining-time string in the duplicate-coordinate error message
(`src/server.js` lines 150-152): `m:ss` when positive, else `已結束`. -/
def remainingTimeStr (remaining : ℚ) : String :=
  if 0 < remaining then
    toString (divFloorBy remaining 60000) ++ ":"
      ++ padTwo (toString (divFloorBy (modBy remaining 60000) 1000))
  else "已結束"

/-- The duplicate-coordinate error message (`src/server.js` line 155):
it names the conflicting coordinate, the existing item's creator and the
existing item's remaining time. -/
def dupMessage (x y : ℚ) (createdBy : String) (remaining : ℚ) : String :=
  "座標 (" ++ toString x ++ ", " ++ toString y ++ ") 已存在倒計時！\n創建者："
    ++ createdBy ++ "\n剩餘時間：" ++ remainingTimeStr remaining

/-- The predicate of the duplicate-coordinate scan (`src/server.js` line 147). -/
def coordMatches (d : AddRequest) (item : CountdownItem) : Bool :=
  decide (item.x = d.x) && decide (item.y = d.y)

/-- The item the success path of `add-countdown` constructs
(`src/server.js` lines 161-173). -/
def newCountdownItem (st : ServerState) (sess : SessionUser) (now : ℚ)
    (d : AddRequest) : CountdownItem :=
  { id := st.nextId
    x := d.x
    y := d.y
    originalDuration := numAdd (numMul d.minutes 60) d.seconds
    endTime := numAdd now (numMul (numAdd (numMul d.minutes 60) d.seconds) 1000)
    createdBy := match d.user with | some u => u.name | none => sess.name
    createdByColor := match d.user with | some u => u.color | none => sess.color
    createdAt := now }

/-- The `add-countdown` handler (`src/server.js` lines 127-186): range
validation, positivity of the combined duration, duplicate check against the
*active* items, then creation, persistence and broadcast. -/
def handleAddCountdown (st : ServerState) (sess : SessionUser) (now : ℚ)
    (d : AddRequest) : ServerState × List Emission :=
  if d.x < 0 ∨ d.y < 0 ∨ d.minutes < 0 ∨ d.seconds < 0 ∨ 59 < d.minutes ∨ 59 < d.seconds then
    (st, [.toSender (.errorReply "輸入數據無效" none)])
  else if numAdd (numMul d.minutes 60) d.seconds ≤ 0 then
    (st, [.toSender (.errorReply "時間必須大於0" none)])
  else
    match (activeCountdowns st.countdownItems now).find? (coordMatches d) with
    | some existingItem =>
        (st, [.toSender (.errorReply
            (dupMessage d.x d.y existingItem.createdBy
              (max 0 (numSub existingItem.endTime now)))
            (some existingItem.id))])
    | none =>
        let newItem := newCountdownItem st sess now d
        (⟨st.countdownItems ++ [newItem], numAdd st.nextId 1⟩,
         [.save ⟨st.countdownItems ++ [newItem], numAdd st.nextId 1⟩,
          .toAll (.countdownAdded newItem)])

/-- The `remove-countdown` handler (`src/server.js` lines 189-204):
`findIndex` by id, then `splice` of the first match, save and broadcast;
a silent no-op when the id is absent. -/
def handleRemoveCountdown (st : ServerState) (id : ℚ) : ServerState × List Emission :=
  match st.countdownItems.find? (fun item => decide (item.id = id)) with
  | some _ =>
      let newItems := st.countdownItems.eraseP (fun item => decide (item.id = id))
      (⟨newItems, st.nextId⟩,
       [.save ⟨newItems, st.nextId⟩, .toAll (.countdownRemoved id)])
  | none => (st, [])

/-- The `clear-all` handler (`src/server.js` lines 207-217): empties the
list, saves, broadcasts; `nextId` is untouched. -/
def handleClearAll (st : ServerState) : ServerState × List Emission :=
  (⟨[], st.nextId⟩, [.save ⟨[], st.nextId⟩, .toAll .countdownsCleared])

/-- The `set-user-info` handler (`src/server.js` lines 101-117): updates the
session's name and color, emits the current active list to the requesting
socket only, then notifies all other sockets. -/
def handleSetUserInfo (st : ServerState) (sess : SessionUser) (now : ℚ)
    (info : UserInfo) : SessionUser × List Emission :=
  let sess' : SessionUser := ⟨sess.id, info.name, info.color⟩
  (sess',
   [.toSender (.countdownList (activeCountdowns st.countdownItems now)),
    .toOthers (.userJoined sess'.name sess'.color sess'.id)])

/-- The sweeper's grace window: 30000 ms (`src/server.js` line 232). -/
def graceMs : ℚ := 30000

/-- One tick of the expiry sweeper (`src/server.js` lines 227-243): keep the
items with `endTime > now - 30000`; if anything was dropped, save and
broadcast the remaining list (`io.emit('countdown-list', countdownItems)`). -/
def sweepTick (st : ServerState) (now : ℚ) : ServerState × List Emission :=
  let kept := st.countdownItems.filter fun item => decide (numSub now graceMs < item.endTime)
  if kept.length ≠ st.countdownItems.length then
    (⟨kept, st.nextId⟩, [.save ⟨kept, st.nextId⟩, .toAll (.countdownList kept)])
  else
    (⟨kept, st.nextId⟩, [])

/-- `saveData` (`src/server.js` lines 62-75): serializes the registry. -/
def saveData (st : ServerState) : SavedFile := ⟨st.countdownItems, st.nextId⟩

/-- `Math.max(...ids)` over a non-empty list (`src/server.js` line 43);
`0` on the empty list, on which the server never calls it. -/
def maxIdOf : List ℚ → ℚ
  | [] => 0
  | [a] => a
  | a :: b :: rest => max a (maxIdOf (b :: rest))

/-- `loadData` (`src/server.js` lines 31-59). Input `none` models a missing
or unparsable data file (the `catch` branch, lines 53-58): the state is
reset to empty and `saveData` immediately overwrites the file. On a parsed
file: keep only items with `endTime > now`, take `parsed.nextId || 1`,
overwrite it with `max(ids) + 1` when any item was loaded, and save once
more when expired items were dropped. -/
def loadData (file : Option SavedFile) (now : ℚ) : ServerState × List Emission :=
  match file with
  | none => (⟨[], 1⟩, [.save ⟨[], 1⟩])
  | some parsed =>
      let items := parsed.countdowns.filter (isActive now)
      let nid := if items.isEmpty then (if parsed.nextId = 0 then 1 else parsed.nextId)
                 else numAdd (maxIdOf (items.map CountdownItem.id)) 1
      (⟨items, nid⟩,
       if items.length = parsed.countdowns.length then [] else [.save ⟨items, nid⟩])

/-- A registry mutation as dispatched by the socket handlers and the
sweeper. -/
inductive Op where
  | add (sess : SessionUser) (d : AddRequest)
  | remove (id : ℚ)
  | clear
  | sweep

/-- The registry state after one operation executed at wall-clock `now`. -/
def applyOp (st : ServerState) (now : ℚ) : Op → ServerState
  | .add sess d => (handleAddCountdown st sess now d).1
  | .remove id => (handleRemoveCountdown st id).1
  | .clear => (handleClearAll st).1
  | .sweep => (sweepTick st now).1

/-- Reachable registry states, indexed by the wall-clock time of the last
transition. A process starts empty (fresh file, or the `catch` branch of
`loadData`), or restores via `loadData` from a snapshot saved from an
earlier reachable state; each operation executes at a time no earlier than
the previous one (`Date.now()` is monotone). -/
inductive Reachable : ServerState → ℚ → Prop where
  | boot (now : ℚ) : Reachable ⟨[], 1⟩ now
  | restore {st : ServerState} {t now : ℚ} :
      Reachable st t → t ≤ now → Reachable (loadData (some (saveData st)) now).1 now
  | step {st : ServerState} {t now : ℚ} (op : Op) :
      Reachable st t → t ≤ now → Reachable (applyOp st now op) now

/-- Run a list of timestamped operations from a state, collecting the id
assigned by each successful `add` (the value of `nextId` captured by
`nextId++`; an `add` succeeded exactly when it bumped `nextId`). -/
def runOps : ServerState → List (ℚ × Op) → ServerState × List ℚ
  | st, [] => (st, [])
  | st, (now, op) :: rest =>
      let st' := applyOp st now op
      let r := runOps st' rest
      (r.1, (if st'.nextId = st.nextId then [] else [st.nextId]) ++ r.2)

/-- The validity predicate for `add` inputs exactly as the claim words it:
`x` and `y` are non-negative integers (integrality of a rational expressed
as denominator 1), `minutes` and `seconds` lie in `[0, 59]`, and the
combined duration is positive. This follows the spec's words, for
comparison with the source's checks; it is not the source's predicate. -/
def claimedAddValid (d : AddRequest) : Prop :=
  (d.x.den = 1 ∧ 0 ≤ d.x) ∧ (d.y.den = 1 ∧ 0 ≤ d.y) ∧
  0 ≤ d.minutes ∧ d.minutes ≤ 59 ∧ 0 ≤ d.seconds ∧ d.seconds ≤ 59 ∧
  0 < d.minutes * 60 + d.seconds

instance : DecidablePred claimedAddValid := fun d => by
  unfold claimedAddValid; infer_instance

/-- The conjunction of the two validation guards of `add-countdown`
passing (`src/server.js` lines 131-143). -/
def addInputOk (d : AddRequest) : Prop :=
  ¬(d.x < 0 ∨ d.y < 0 ∨ d.minutes < 0 ∨ d.seconds < 0 ∨ 59 < d.minutes ∨ 59 < d.seconds)
  ∧ ¬(numAdd (numMul d.minutes 60) d.seconds ≤ 0)

instance : DecidablePred addInputOk := fun d => by
  unfold addInputOk; infer_instance

theorem numAdd_eq (a b : ℚ) : numAdd a b = a + b := by
  have ha : ((a.den : ℚ)) ≠ 0 := by exact_mod_cast a.den_ne_zero
  have hb : ((b.den : ℚ)) ≠ 0 := by exact_mod_cast b.den_ne_zero
  conv_rhs => rw [← Rat.num_div_den a, ← Rat.num_div_den b, div_add_div _ _ ha hb]
  rw [numAdd, Rat.mkRat_eq_div]
  push_cast
  ring_nf

theorem numSub_eq (a b : ℚ) : numSub a b = a - b := by
  have ha : ((a.den : ℚ)) ≠ 0 := by exact_mod_cast a.den_ne_zero
  have hb : ((b.den : ℚ)) ≠ 0 := by exact_mod_cast b.den_ne_zero
  conv_rhs => rw [← Rat.num_div_den a, ← Rat.num_div_den b, div_sub_div _ _ ha hb]
  rw [numSub, Rat.mkRat_eq_div]
  push_cast
  ring_nf

theorem numMul_eq (a b : ℚ) : numMul a b = a * b := by
  conv_rhs => rw [← Rat.num_div_den a, ← Rat.num_div_den b, div_mul_div_comm]
  rw [numMul, Rat.mkRat_eq_div]
  push_cast
  ring_nf

theorem mem_activeCountdowns {items : List CountdownItem} {now : ℚ} {it : CountdownItem} :
    it ∈ activeCountdowns items now ↔ it ∈ items ∧ now < it.endTime := by
  simp [activeCountdowns, isActive, List.mem_filter]

theorem coordMatches_eq_true {d : AddRequest} {it : CountdownItem} :
    coordMatches d it = true ↔ it.x = d.x ∧ it.y = d.y := by
  simp [coordMatches]

theorem handleAdd_guard1 {st : ServerState} {sess : SessionUser} {now : ℚ} {d : AddRequest}
    (h : d.x < 0 ∨ d.y < 0 ∨ d.minutes < 0 ∨ d.seconds < 0 ∨ 59 < d.minutes ∨ 59 < d.seconds) :
    handleAddCountdown st sess now d = (st, [.toSender (.errorReply "輸入數據無效" none)]) := by
  rw [handleAddCountdown, if_pos h]

theorem handleAdd_guard2 {st : ServerState} {sess : SessionUser} {now : ℚ} {d : AddRequest}
    (h1 : ¬(d.x < 0 ∨ d.y < 0 ∨ d.minutes < 0 ∨ d.seconds < 0 ∨ 59 < d.minutes ∨ 59 < d.seconds))
    (h2 : numAdd (numMul d.minutes 60) d.seconds ≤ 0) :
    handleAddCountdown st sess now d = (st, [.toSender (.errorReply "時間必須大於0" none)]) := by
  rw [handleAddCountdown, if_neg h1, if_pos h2]

theorem handleAdd_dup {st : ServerState} {sess : SessionUser} {now : ℚ} {d : AddRequest}
    {it : CountdownItem} (h : addInputOk d)
    (hfind : (activeCountdowns st.countdownItems now).find? (coordMatches d) = some it) :
    handleAddCountdown st sess now d
      = (st, [.toSender (.errorReply
          (dupMessage d.x d.y it.createdBy (max 0 (numSub it.endTime now)))
          (some it.id))]) := by
  rw [handleAddCountdown, if_neg h.1, if_neg h.2, hfind]

theorem handleAdd_success {st : ServerState} {sess : SessionUser} {now : ℚ} {d : AddRequest}
    (h : addInputOk d)
    (hfind : (activeCountdowns st.countdownItems now).find? (coordMatches d) = none) :
    handleAddCountdown st sess now d
      = (⟨st.countdownItems ++ [newCountdownItem st sess now d], numAdd st.nextId 1⟩,
         [.save ⟨st.countdownItems ++ [newCountdownItem st sess now d], numAdd st.nextId 1⟩,
          .toAll (.countdownAdded (newCountdownItem st sess now d))]) := by
  rw [handleAddCountdown, if_neg h.1, if_neg h.2, hfind]

theorem le_maxIdOf {l : List ℚ} {a : ℚ} (h : a ∈ l) : a ≤ maxIdOf l := by
  induction l with
  | nil => cases h
  | cons b t ih =>
      cases t with
      | nil =>
          rw [List.mem_singleton] at h
          rw [h, maxIdOf]
      | cons c u =>
          rcases List.mem_cons.mp h with rfl | h'
          · exact le_max_left _ _
          · exact le_trans (ih h') (le_max_right _ _)

/-- Claim C10: when load fails (missing or unparsable data file), the store
does not merely start empty — it immediately calls save with the empty
state, overwriting the data file on disk with `{countdowns: [], nextId: 1}`;
a file that failed to parse at startup has its previous contents destroyed
rather than preserved for recovery. -/
theorem C10_load_failure_overwrites_file (now : ℚ) :
    loadData none now = (⟨[], 1⟩, [Emission.save ⟨[], 1⟩]) := rfl

/-- Claim C8: handling a `set-user-info` request updates the session's
display name and color, immediately sends the current active-item list
(items with `endTime > now`) to that connection only, and notifies every
other connected session — but not the requester — that the participant
joined. -/
theorem C8_set_user_info_behaviour (st : ServerState) (sess : SessionUser) (now : ℚ)
    (info : UserInfo) :
    (handleSetUserInfo st sess now info).1 = ⟨sess.id, info.name, info.color⟩
    ∧ (handleSetUserInfo st sess now info).2
        = [Emission.toSender (ServerEvent.countdownList (activeCountdowns st.countdownItems now)),
           Emission.toOthers (ServerEvent.userJoined info.name info.color sess.id)]
    ∧ ∀ it, it ∈ activeCountdowns st.countdownItems now ↔ it ∈ st.countdownItems ∧ now < it.endTime :=
  ⟨rfl, rfl, fun _ => mem_activeCountdowns⟩

/-- Witness for C8 at a concrete session, request and state. -/
theorem C8_set_user_info_behaviour_witness :
    (handleSetUserInfo ⟨[], 1⟩ ⟨"s1", "未命名用戶", "#3b82f6"⟩ 0 ⟨"Alice", "#222222"⟩).1
      = ⟨"s1", "Alice", "#222222"⟩ :=
  (C8_set_user_info_behaviour ⟨[], 1⟩ ⟨"s1", "未命名用戶", "#3b82f6"⟩ 0 ⟨"Alice", "#222222"⟩).1

/-- Claim C6: `save` then `load` yields exactly the non-expired subset of
the saved items, and the loaded `nextId` exceeds every loaded item's id
(`nextId ≥ max(id) + 1` over the loaded items, the counter being reconciled
to `max(ids) + 1` whenever any item is loaded). -/
theorem C6_save_load_roundtrip (items : List CountdownItem) (nid now : ℚ) :
    (∀ it, it ∈ (loadData (some (saveData ⟨items, nid⟩)) now).1.countdownItems
        ↔ it ∈ items ∧ now < it.endTime)
    ∧ ∀ it ∈ (loadData (some (saveData ⟨items, nid⟩)) now).1.countdownItems,
        it.id + 1 ≤ (loadData (some (saveData ⟨items, nid⟩)) now).1.nextId := by
  constructor
  · intro it
    exact mem_activeCountdowns
  · intro it hit
    have hne : (items.filter (isActive now)).isEmpty = false :=
      List.isEmpty_eq_false.mpr (List.ne_nil_of_mem hit)
    show it.id + 1 ≤ (if (items.filter (isActive now)).isEmpty then _ else
        numAdd (maxIdOf ((items.filter (isActive now)).map CountdownItem.id)) 1)
    rw [hne]
    simp only [Bool.false_eq_true, if_false, numAdd_eq]
    exact add_le_add_right (le_maxIdOf (List.mem_map_of_mem CountdownItem.id hit)) 1

/-- Witness for C6 at a concrete saved file and load time. -/
theorem C6_save_load_roundtrip_witness :
    (⟨7, 2, 3, 60, 9000, "A", "#1", 0⟩ : CountdownItem).id + 1
      ≤ (loadData (some (saveData ⟨[⟨7, 2, 3, 60, 9000, "A", "#1", 0⟩], 1⟩)) 100).1.nextId :=
  (C6_save_load_roundtrip [⟨7, 2, 3, 60, 9000, "A", "#1", 0⟩] 1 100).2
    ⟨7, 2, 3, 60, 9000, "A", "#1", 0⟩ (by decide)

/-- Claim C7: failed requests are atomic and private — a validation failure
or duplicate-coordinate rejection leaves the registry (list and `nextId`)
unchanged, persists nothing, broadcasts nothing, and sends the error payload
only to the originating connection; `remove` of an id not in the registry
leaves the list unchanged, persists nothing and broadcasts nothing. -/
theorem C7_failed_requests_atomic_private :
    (∀ (st : ServerState) (sess : SessionUser) (now : ℚ) (d : AddRequest),
        ((d.x < 0 ∨ d.y < 0 ∨ d.minutes < 0 ∨ d.seconds < 0 ∨ 59 < d.minutes ∨ 59 < d.seconds)
          ∨ numAdd (numMul d.minutes 60) d.seconds ≤ 0) →
        (handleAddCountdown st sess now d).1 = st
        ∧ ∃ m, (handleAddCountdown st sess now d).2
            = [Emission.toSender (ServerEvent.errorReply m none)])
    ∧ (∀ (st : ServerState) (sess : SessionUser) (now : ℚ) (d : AddRequest)
          (it : CountdownItem), addInputOk d →
        (activeCountdowns st.countdownItems now).find? (coordMatches d) = some it →
        (handleAddCountdown st sess now d).1 = st
        ∧ ∃ m, (handleAddCountdown st sess now d).2
            = [Emission.toSender (ServerEvent.errorReply m (some it.id))])
    ∧ (∀ (st : ServerState) (id : ℚ), (∀ it ∈ st.countdownItems, it.id ≠ id) →
        handleRemoveCountdown st id = (st, [])) := by
  refine ⟨?_, ?_, ?_⟩
  · intro st sess now d h
    by_cases h1 : d.x < 0 ∨ d.y < 0 ∨ d.minutes < 0 ∨ d.seconds < 0 ∨ 59 < d.minutes ∨ 59 < d.seconds
    · rw [handleAdd_guard1 h1]
      exact ⟨rfl, "輸入數據無效", rfl⟩
    · have h2 : numAdd (numMul d.minutes 60) d.seconds ≤ 0 := h.resolve_left h1
      rw [handleAdd_guard2 h1 h2]
      exact ⟨rfl, "時間必須大於0", rfl⟩
  · intro st sess now d it h hfind
    rw [handleAdd_dup h hfind]
    exact ⟨rfl, dupMessage d.x d.y it.createdBy (max 0 (numSub it.endTime now)), rfl⟩
  · intro st id h
    have hfind : st.countdownItems.find? (fun item => decide (item.id = id)) = none := by
      rw [List.find?_eq_none]
      intro x hx
      simpa using h x hx
    rw [handleRemoveCountdown, hfind]

/-- Witness for C7: a concrete rejected `add` and a concrete no-op `remove`. -/
theorem C7_failed_requests_atomic_private_witness :
    (handleAddCountdown ⟨[], 1⟩ ⟨"s1", "A", "#1"⟩ 0 ⟨2, 3, 0, 0, none⟩).1 = ⟨[], 1⟩
    ∧ handleRemoveCountdown ⟨[⟨7, 2, 3, 60, 9000, "A", "#1", 0⟩], 8⟩ 99
        = (⟨[⟨7, 2, 3, 60, 9000, "A", "#1", 0⟩], 8⟩, []) :=
  ⟨(C7_failed_requests_atomic_private.1 ⟨[], 1⟩ ⟨"s1", "A", "#1"⟩ 0 ⟨2, 3, 0, 0, none⟩
      (by decide)).1,
   C7_failed_requests_atomic_private.2.2 ⟨[⟨7, 2, 3, 60, 9000, "A", "#1", 0⟩], 8⟩ 99 (by decide)⟩

theorem handleAdd_validationError_iff (st : ServerState) (sess : SessionUser) (now : ℚ)
    (d : AddRequest) :
    (∃ m, (handleAddCountdown st sess now d).2
        = [Emission.toSender (ServerEvent.errorReply m none)])
      ↔ ((d.x < 0 ∨ d.y < 0 ∨ d.minutes < 0 ∨ d.seconds < 0 ∨ 59 < d.minutes ∨ 59 < d.seconds)
          ∨ numAdd (numMul d.minutes 60) d.seconds ≤ 0) := by
  constructor
  · rintro ⟨m, hm⟩
    by_contra hno
    have hok : addInputOk d := ⟨fun hg1 => hno (Or.inl hg1), fun hg2 => hno (Or.inr hg2)⟩
    rcases hfind : (activeCountdowns st.countdownItems now).find? (coordMatches d) with _ | it
    · rw [handleAdd_success hok hfind] at hm
      simp at hm
    · rw [handleAdd_dup hok hfind] at hm
      simp at hm
  · intro hg
    by_cases h1 : d.x < 0 ∨ d.y < 0 ∨ d.minutes < 0 ∨ d.seconds < 0 ∨ 59 < d.minutes ∨ 59 < d.seconds
    · exact ⟨"輸入數據無效", by rw [handleAdd_guard1 h1]⟩
    · exact ⟨"時間必須大於0", by rw [handleAdd_guard2 h1 (hg.resolve_left h1)]⟩

/-- Claim C2: for a well-formed `add` request, the request is rejected with
a duplicate-coordinate error (payload carrying an id) iff some *active* item
already occupies `(x, y)`; the rejection payload carries the existing item's
id and a message built from its remaining time; and when no active occupant
exists (in particular when an expired occupant sits at the coordinate) a new
active item is appended at that coordinate. -/
theorem C2_duplicate_check (st : ServerState) (sess : SessionUser) (now : ℚ)
    (d : AddRequest) (h : addInputOk d) :
    ((∃ m i, (handleAddCountdown st sess now d).2
        = [Emission.toSender (ServerEvent.errorReply m (some i))])
      ↔ ∃ it ∈ st.countdownItems, now < it.endTime ∧ it.x = d.x ∧ it.y = d.y)
    ∧ (∀ it, (activeCountdowns st.countdownItems now).find? (coordMatches d) = some it →
        (handleAddCountdown st sess now d).2
          = [Emission.toSender (ServerEvent.errorReply
              (dupMessage d.x d.y it.createdBy (max 0 (numSub it.endTime now)))
              (some it.id))])
    ∧ ((∀ it ∈ st.countdownItems, now < it.endTime → ¬(it.x = d.x ∧ it.y = d.y)) →
        ∃ newItem, (handleAddCountdown st sess now d).1.countdownItems
            = st.countdownItems ++ [newItem]
          ∧ newItem.x = d.x ∧ newItem.y = d.y ∧ now < newItem.endTime) := by
  refine ⟨?_, ?_, ?_⟩
  · rcases hfind : (activeCountdowns st.countdownItems now).find? (coordMatches d) with _ | it
    · constructor
      · rintro ⟨m, i, hm⟩
        rw [handleAdd_success h hfind] at hm
        simp at hm
      · rintro ⟨it, hmem, hact, hx, hy⟩
        have hnot := List.find?_eq_none.mp hfind it (mem_activeCountdowns.mpr ⟨hmem, hact⟩)
        exact absurd (coordMatches_eq_true.mpr ⟨hx, hy⟩) hnot
    · constructor
      · intro _
        have hmem := List.mem_of_find?_eq_some hfind
        have hcm := List.find?_some hfind
        obtain ⟨hmem', hact⟩ := mem_activeCountdowns.mp hmem
        obtain ⟨hx, hy⟩ := coordMatches_eq_true.mp hcm
        exact ⟨it, hmem', hact, hx, hy⟩
      · intro _
        exact ⟨dupMessage d.x d.y it.createdBy (max 0 (numSub it.endTime now)), it.id,
          by rw [handleAdd_dup h hfind]⟩
  · intro it hfind
    rw [handleAdd_dup h hfind]
  · intro hnone
    have hfind : (activeCountdowns st.countdownItems now).find? (coordMatches d) = none := by
      rw [List.find?_eq_none]
      intro x hx hcm
      obtain ⟨hmem, hact⟩ := mem_activeCountdowns.mp hx
      exact hnone x hmem hact (coordMatches_eq_true.mp hcm)
    refine ⟨newCountdownItem st sess now d, ?_, rfl, rfl, ?_⟩
    · rw [handleAdd_success h hfind]
    · have h2 : ¬ numAdd (numMul d.minutes 60) d.seconds ≤ 0 := h.2
      rw [numAdd_eq, numMul_eq] at h2
      have hpos : 0 < d.minutes * 60 + d.seconds := not_le.mp h2
      show now < numAdd now (numMul (numAdd (numMul d.minutes 60) d.seconds) 1000)
      simp only [numAdd_eq, numMul_eq]
      have hmul : 0 < (d.minutes * 60 + d.seconds) * 1000 := by positivity
      linarith

/-- Witness for C2: an active occupant at (2, 3) makes a second add there
fail with that occupant's id and remaining time in the payload. -/
theorem C2_duplicate_check_witness :
    (handleAddCountdown ⟨[⟨7, 2, 3, 60, 5000, "Alice", "#abc", 0⟩], 8⟩ ⟨"s1", "Bob", "#def"⟩ 1000
        ⟨2, 3, 1, 0, none⟩).2
      = [Emission.toSender (ServerEvent.errorReply
          (dupMessage 2 3 "Alice" (max 0 (numSub 5000 1000))) (some 7))] :=
  (C2_duplicate_check ⟨[⟨7, 2, 3, 60, 5000, "Alice", "#abc", 0⟩], 8⟩ ⟨"s1", "Bob", "#def"⟩ 1000
      ⟨2, 3, 1, 0, none⟩ (by decide)).2.1
    ⟨7, 2, 3, 60, 5000, "Alice", "#abc", 0⟩ (by decide)

/-- Claim C3 as stated is false at a concrete input: the handler performs no
integrality check on `x`/`y`, so the request with `x = 1/2` — which the
claim's validity predicate rejects, `1/2` not being an integer — passes
validation and creates an item instead of failing with a validation error. -/
theorem C3_counterexample :
    ¬ claimedAddValid ⟨mkRat 1 2, 3, 1, 0, none⟩
    ∧ handleAddCountdown ⟨[], 1⟩ ⟨"s1", "Alice", "#3b82f6"⟩ 0 ⟨mkRat 1 2, 3, 1, 0, none⟩
      = (⟨[⟨1, mkRat 1 2, 3, 60, 60000, "Alice", "#3b82f6", 0⟩], 2⟩,
         [Emission.save ⟨[⟨1, mkRat 1 2, 3, 60, 60000, "Alice", "#3b82f6", 0⟩], 2⟩,
          Emission.toAll (ServerEvent.countdownAdded
            ⟨1, mkRat 1 2, 3, 60, 60000, "Alice", "#3b82f6", 0⟩)]) :=
  ⟨by decide, by decide⟩

/-- Claim C3, amended: `add` fails with a ValidationError exactly when
`x` or `y` is negative, `minutes` or `seconds` falls outside `[0, 59]`, or
the combined duration `minutes*60 + seconds` is not positive — with no
integrality requirement on `x` and `y`; in particular `minutes = 0` and
`seconds = 0` always fails validation. -/
theorem C3_amended_validation (st : ServerState) (sess : SessionUser) (now : ℚ)
    (d : AddRequest) :
    ((∃ m, (handleAddCountdown st sess now d).2
        = [Emission.toSender (ServerEvent.errorReply m none)])
      ↔ ¬(0 ≤ d.x ∧ 0 ≤ d.y ∧ 0 ≤ d.minutes ∧ d.minutes ≤ 59 ∧ 0 ≤ d.seconds ∧ d.seconds ≤ 59
            ∧ 0 < d.minutes * 60 + d.seconds))
    ∧ (d.minutes = 0 → d.seconds = 0 → ∃ m, (handleAddCountdown st sess now d).2
        = [Emission.toSender (ServerEvent.errorReply m none)]) := by
  have hbridge : numAdd (numMul d.minutes 60) d.seconds = d.minutes * 60 + d.seconds := by
    rw [numMul_eq, numAdd_eq]
  constructor
  · rw [handleAdd_validationError_iff, hbridge]
    simp only [not_and_or, not_le, not_lt]
    tauto
  · intro hm hs
    rw [handleAdd_validationError_iff]
    right
    rw [hbridge, hm, hs]
    norm_num

/-- Witness for C3 (amended) at a concrete zero-duration request. -/
theorem C3_amended_validation_witness :
    ∃ m, (handleAddCountdown ⟨[], 1⟩ ⟨"s1", "A", "#1"⟩ 0 ⟨5, 5, 0, 0, none⟩).2
      = [Emission.toSender (ServerEvent.errorReply m none)] :=
  (C3_amended_validation ⟨[], 1⟩ ⟨"s1", "A", "#1"⟩ 0 ⟨5, 5, 0, 0, none⟩).2 rfl rfl

/-- Claim C4 as stated is false at a concrete input: when the request
carries a `user` object, `createdBy` is taken from the request, not from the
creating session — here the session is named "Alice" but the created item's
`createdBy` is "Bob" from the request payload. -/
theorem C4_counterexample :
    ((handleAddCountdown ⟨[], 1⟩ ⟨"s1", "Alice", "#111111"⟩ 0
        ⟨2, 3, 1, 0, some ⟨"Bob", "#222222"⟩⟩).1.countdownItems.map CountdownItem.createdBy)
      = ["Bob"]
    ∧ "Bob" ≠ "Alice" := by
  exact ⟨by decide, by decide⟩

/-- Claim C4, amended: on every successful add the new item gets
`id = nextId` (with `nextId` then incremented by one),
`endTime = now + durationSeconds*1000`, is appended at the end of the list,
and is the value persisted and broadcast; its `createdBy`/`createdByColor`
are captured by value at creation time from the request's `user` object when
one is supplied, and otherwise from the creating session. -/
theorem C4_successful_add (st : ServerState) (sess : SessionUser) (now : ℚ)
    (d : AddRequest) (h : addInputOk d)
    (hfind : (activeCountdowns st.countdownItems now).find? (coordMatches d) = none) :
    handleAddCountdown st sess now d
      = (⟨st.countdownItems ++ [newCountdownItem st sess now d], st.nextId + 1⟩,
         [Emission.save ⟨st.countdownItems ++ [newCountdownItem st sess now d], st.nextId + 1⟩,
          Emission.toAll (ServerEvent.countdownAdded (newCountdownItem st sess now d))])
    ∧ (newCountdownItem st sess now d).id = st.nextId
    ∧ (newCountdownItem st sess now d).endTime = now + (d.minutes * 60 + d.seconds) * 1000
    ∧ (newCountdownItem st sess now d).createdBy
        = (match d.user with | some u => u.name | none => sess.name)
    ∧ (newCountdownItem st sess now d).createdByColor
        = (match d.user with | some u => u.color | none => sess.color)
    ∧ (newCountdownItem st sess now d).createdAt = now := by
  have hb : numAdd st.nextId 1 = st.nextId + 1 := numAdd_eq _ _
  refine ⟨?_, rfl, ?_, rfl, rfl, rfl⟩
  · rw [handleAdd_success h hfind, hb]
  · show numAdd now (numMul (numAdd (numMul d.minutes 60) d.seconds) 1000)
        = now + (d.minutes * 60 + d.seconds) * 1000
    simp only [numAdd_eq, numMul_eq]

/-- Witness for C4 (amended) at a concrete successful add. -/
theorem C4_successful_add_witness :
    handleAddCountdown ⟨[], 5⟩ ⟨"s1", "Alice", "#111111"⟩ 0 ⟨2, 3, 1, 0, none⟩
      = (⟨[newCountdownItem ⟨[], 5⟩ ⟨"s1", "Alice", "#111111"⟩ 0 ⟨2, 3, 1, 0, none⟩], (5 : ℚ) + 1⟩,
         [Emission.save ⟨[newCountdownItem ⟨[], 5⟩ ⟨"s1", "Alice", "#111111"⟩ 0
              ⟨2, 3, 1, 0, none⟩], (5 : ℚ) + 1⟩,
          Emission.toAll (ServerEvent.countdownAdded
            (newCountdownItem ⟨[], 5⟩ ⟨"s1", "Alice", "#111111"⟩ 0 ⟨2, 3, 1, 0, none⟩))]) :=
  (C4_successful_add ⟨[], 5⟩ ⟨"s1", "Alice", "#111111"⟩ 0 ⟨2, 3, 1, 0, none⟩
    (by decide) (by decide)).1

theorem sweepTick_fst (st : ServerState) (now : ℚ) :
    (sweepTick st now).1
      = ⟨st.countdownItems.filter fun item => decide (numSub now graceMs < item.endTime),
         st.nextId⟩ := by
  simp only [sweepTick]
  split <;> rfl

theorem sweepTick_snd_changed (st : ServerState) (now : ℚ)
    (hne : (st.countdownItems.filter
        fun item => decide (numSub now graceMs < item.endTime)).length
      ≠ st.countdownItems.length) :
    (sweepTick st now).2
      = [Emission.save ⟨st.countdownItems.filter
            (fun item => decide (numSub now graceMs < item.endTime)), st.nextId⟩,
         Emission.toAll (ServerEvent.countdownList (st.countdownItems.filter
            fun item => decide (numSub now graceMs < item.endTime)))] := by
  simp only [sweepTick]
  rw [if_pos hne]

theorem sweepTick_snd_unchanged (st : ServerState) (now : ℚ)
    (heq : (st.countdownItems.filter
        fun item => decide (numSub now graceMs < item.endTime)).length
      = st.countdownItems.length) :
    (sweepTick st now).2 = [] := by
  simp only [sweepTick]
  rw [if_neg (not_ne_iff.mpr heq)]

/-- Claim C5 as stated is false at a concrete input: a tick that removes an
item broadcasts the full *remaining* list, which can contain an item whose
`endTime` has passed but is still within the 30 s grace window — not the
full *active* list. Here the broadcast list contains an item with
`endTime = 20000` at `now = 40000`, which is not active. -/
theorem C5_counterexample :
    (sweepTick ⟨[⟨1, 0, 0, 60, 20000, "A", "#1", 0⟩, ⟨2, 1, 1, 60, 5000, "B", "#2", 0⟩], 3⟩
        40000).2
      = [Emission.save ⟨[⟨1, 0, 0, 60, 20000, "A", "#1", 0⟩], 3⟩,
         Emission.toAll (ServerEvent.countdownList [⟨1, 0, 0, 60, 20000, "A", "#1", 0⟩])]
    ∧ activeCountdowns [(⟨1, 0, 0, 60, 20000, "A", "#1", 0⟩ : CountdownItem)] 40000 = [] := by
  exact ⟨by decide, by decide⟩

/-- Claim C5, amended: each sweeper tick at time `now` removes exactly the
items with `endTime ≤ now - graceMs` (expired items inside the grace window
and all active items survive); when at least one item is removed the tick
persists the registry and broadcasts the full *remaining* list — which may
still contain expired items within the grace window — to all sessions, and
when nothing is removed it performs no save and no broadcast. -/
theorem C5_sweep_tick (st : ServerState) (now : ℚ) :
    (sweepTick st now).1.nextId = st.nextId
    ∧ (∀ it ∈ st.countdownItems,
        (it ∈ (sweepTick st now).1.countdownItems ↔ now - graceMs < it.endTime))
    ∧ ((∃ it ∈ st.countdownItems, it.endTime ≤ now - graceMs) →
        (sweepTick st now).2
          = [Emission.save ⟨(sweepTick st now).1.countdownItems, st.nextId⟩,
             Emission.toAll (ServerEvent.countdownList (sweepTick st now).1.countdownItems)])
    ∧ ((∀ it ∈ st.countdownItems, now - graceMs < it.endTime) → (sweepTick st now).2 = []) := by
  refine ⟨by rw [sweepTick_fst], ?_, ?_, ?_⟩
  · intro it hmem
    rw [sweepTick_fst]
    simp [List.mem_filter, hmem, numSub_eq]
  · rintro ⟨it, hmem, hle⟩
    have hne : (st.countdownItems.filter
        fun item => decide (numSub now graceMs < item.endTime)).length
        ≠ st.countdownItems.length := by
      intro hlen
      have heq := List.Sublist.eq_of_length (List.filter_sublist _) hlen
      have hall := List.filter_eq_self.mp heq it hmem
      rw [decide_eq_true_eq, numSub_eq] at hall
      exact absurd hle (not_le.mpr hall)
    rw [sweepTick_fst]
    exact sweepTick_snd_changed st now hne
  · intro hall
    have heq : (st.countdownItems.filter
        fun item => decide (numSub now graceMs < item.endTime)).length
        = st.countdownItems.length := by
      rw [List.filter_eq_self.mpr]
      intro a ha
      rw [decide_eq_true_eq, numSub_eq]
      exact hall a ha
    exact sweepTick_snd_unchanged st now heq

/-- Witness for C5 at concrete states: a tick with an item past the grace
window saves and broadcasts, a tick with only live items emits nothing. -/
theorem C5_sweep_tick_witness :
    (sweepTick ⟨[⟨2, 1, 1, 60, 5000, "B", "#2", 0⟩], 3⟩ 40000).2
      = [Emission.save ⟨(sweepTick ⟨[⟨2, 1, 1, 60, 5000, "B", "#2", 0⟩], 3⟩ 40000).1.countdownItems, 3⟩,
         Emission.toAll (ServerEvent.countdownList
           (sweepTick ⟨[⟨2, 1, 1, 60, 5000, "B", "#2", 0⟩], 3⟩ 40000).1.countdownItems)]
    ∧ (sweepTick ⟨[⟨2, 1, 1, 60, 90000, "B", "#2", 0⟩], 3⟩ 40000).2 = [] :=
  ⟨(C5_sweep_tick ⟨[⟨2, 1, 1, 60, 5000, "B", "#2", 0⟩], 3⟩ 40000).2.2.1
      ⟨⟨2, 1, 1, 60, 5000, "B", "#2", 0⟩, by decide, by norm_num [graceMs]⟩,
   (C5_sweep_tick ⟨[⟨2, 1, 1, 60, 90000, "B", "#2", 0⟩], 3⟩ 40000).2.2.2
      (by intro it hmem; rw [List.mem_singleton] at hmem; rw [hmem]; norm_num [graceMs])⟩

theorem activeCountdowns_anti (items : List CountdownItem) {t t' : ℚ} (h : t ≤ t') :
    List.Sublist (activeCountdowns items t') (activeCountdowns items t) := by
  apply List.monotone_filter_right
  intro a
  by_cases hc : t' < a.endTime
  · have hc' : t < a.endTime := lt_of_le_of_lt h hc
    simp [isActive, hc, hc']
  · simp [isActive, hc]

theorem isActive_newCountdownItem {st : ServerState} {sess : SessionUser} {now : ℚ}
    {d : AddRequest} (h2 : ¬ numAdd (numMul d.minutes 60) d.seconds ≤ 0) :
    isActive now (newCountdownItem st sess now d) = true := by
  rw [isActive, decide_eq_true_eq]
  show now < numAdd now (numMul (numAdd (numMul d.minutes 60) d.seconds) 1000)
  rw [numAdd_eq, numMul_eq] at h2
  have hpos : 0 < d.minutes * 60 + d.seconds := not_le.mp h2
  simp only [numAdd_eq, numMul_eq]
  have hmul : 0 < (d.minutes * 60 + d.seconds) * 1000 := by positivity
  linarith

/-- Claim C1: in every reachable registry state, any two distinct active
items (items with `endTime > now`) have distinct coordinate pairs — the
duplicate check of `add` rejects an active occupant, expiry only shrinks the
active set as time advances, and `remove`, `clear`, `sweep` and `load` only
remove items, so the predicate is preserved by every registry operation. -/
theorem C1_active_coordinates_distinct (st : ServerState) (now : ℚ) (h : Reachable st now) :
    (activeCountdowns st.countdownItems now).Pairwise
      (fun a b => ((a.x, a.y) : ℚ × ℚ) ≠ (b.x, b.y)) := by
  induction h with
  | boot now => simp [activeCountdowns]
  | @restore st t now hre hle ih =>
      have hitems : (loadData (some (saveData st)) now).1.countdownItems
          = st.countdownItems.filter (isActive now) := rfl
      rw [hitems]
      have h1 : List.Sublist (activeCountdowns (st.countdownItems.filter (isActive now)) now)
          (activeCountdowns st.countdownItems now) :=
        List.Sublist.filter _ (List.filter_sublist _)
      exact List.Pairwise.sublist (h1.trans (activeCountdowns_anti _ hle)) ih
  | @step st t now op hre hle ih =>
      have ihnow : (activeCountdowns st.countdownItems now).Pairwise
          (fun a b => ((a.x, a.y) : ℚ × ℚ) ≠ (b.x, b.y)) :=
        List.Pairwise.sublist (activeCountdowns_anti _ hle) ih
      cases op with
      | add sess d =>
          simp only [applyOp]
          by_cases h1 : d.x < 0 ∨ d.y < 0 ∨ d.minutes < 0 ∨ d.seconds < 0
              ∨ 59 < d.minutes ∨ 59 < d.seconds
          · rw [handleAdd_guard1 h1]
            exact ihnow
          · by_cases h2 : numAdd (numMul d.minutes 60) d.seconds ≤ 0
            · rw [handleAdd_guard2 h1 h2]
              exact ihnow
            · rcases hfind : (activeCountdowns st.countdownItems now).find? (coordMatches d)
                  with _ | it
              · rw [handleAdd_success ⟨h1, h2⟩ hfind]
                have hsplit : activeCountdowns
                    (st.countdownItems ++ [newCountdownItem st sess now d]) now
                    = activeCountdowns st.countdownItems now
                      ++ [newCountdownItem st sess now d] := by
                  rw [activeCountdowns, List.filter_append]
                  rw [show ([newCountdownItem st sess now d].filter (isActive now))
                      = [newCountdownItem st sess now d] from by
                    simp [List.filter, isActive_newCountdownItem h2]]
                  rfl
                rw [hsplit, List.pairwise_append]
                refine ⟨ihnow, List.pairwise_singleton _ _, ?_⟩
                intro a ha b hb
                rw [List.mem_singleton] at hb
                subst hb
                intro hpair
                apply List.find?_eq_none.mp hfind a ha
                rw [coordMatches_eq_true]
                exact ⟨congrArg Prod.fst hpair, congrArg Prod.snd hpair⟩
              · rw [handleAdd_dup ⟨h1, h2⟩ hfind]
                exact ihnow
      | remove id =>
          simp only [applyOp]
          rcases hfind : st.countdownItems.find? (fun item => decide (item.id = id)) with _ | it
          · rw [handleRemoveCountdown, hfind]
            exact ihnow
          · rw [handleRemoveCountdown, hfind]
            exact List.Pairwise.sublist
              (List.Sublist.filter _ (List.eraseP_sublist _)) ihnow
      | clear =>
          simp [applyOp, handleClearAll, activeCountdowns]
      | sweep =>
          simp only [applyOp]
          rw [sweepTick_fst]
          exact List.Pairwise.sublist
            (List.Sublist.filter _ (List.filter_sublist _)) ihnow

/-- Witness for C1: the invariant at a concrete reachable state (boot, then
one successful add). -/
theorem C1_active_coordinates_distinct_witness :
    (activeCountdowns
        (applyOp ⟨[], 1⟩ 0 (Op.add ⟨"s1", "A", "#1"⟩ ⟨2, 3, 1, 0, none⟩)).countdownItems
        0).Pairwise
      (fun a b => ((a.x, a.y) : ℚ × ℚ) ≠ (b.x, b.y)) :=
  C1_active_coordinates_distinct _ 0 (Reachable.step _ (Reachable.boot 0) le_rfl)

theorem applyOp_nextId_cases (st : ServerState) (now : ℚ) (op : Op) :
    (applyOp st now op).nextId = st.nextId ∨ (applyOp st now op).nextId = st.nextId + 1 := by
  cases op with
  | add sess d =>
      by_cases h1 : d.x < 0 ∨ d.y < 0 ∨ d.minutes < 0 ∨ d.seconds < 0
          ∨ 59 < d.minutes ∨ 59 < d.seconds
      · left
        simp only [applyOp]
        rw [handleAdd_guard1 h1]
      · by_cases h2 : numAdd (numMul d.minutes 60) d.seconds ≤ 0
        · left
          simp only [applyOp]
          rw [handleAdd_guard2 h1 h2]
        · rcases hfind : (activeCountdowns st.countdownItems now).find? (coordMatches d)
              with _ | it
          · right
            simp only [applyOp]
            rw [handleAdd_success ⟨h1, h2⟩ hfind]
            exact numAdd_eq _ _
          · left
            simp only [applyOp]
            rw [handleAdd_dup ⟨h1, h2⟩ hfind]
  | remove id =>
      left
      rcases hfind : st.countdownItems.find? (fun item => decide (item.id = id)) with _ | it
          <;> simp only [applyOp] <;> rw [handleRemoveCountdown, hfind]
  | clear => left; rfl
  | sweep =>
      left
      simp only [applyOp]
      rw [sweepTick_fst]

theorem runOps_spec (ops : List (ℚ × Op)) : ∀ st : ServerState,
    st.nextId ≤ (runOps st ops).1.nextId
    ∧ (∀ i ∈ (runOps st ops).2, st.nextId ≤ i ∧ i < (runOps st ops).1.nextId)
    ∧ List.Pairwise (fun a b => a < b) (runOps st ops).2 := by
  induction ops with
  | nil =>
      intro st
      simp [runOps]
  | cons p rest ih =>
      intro st
      obtain ⟨now, op⟩ := p
      obtain ⟨hmono, hids, hpw⟩ := ih (applyOp st now op)
      have h1 : (runOps st ((now, op) :: rest)).1 = (runOps (applyOp st now op) rest).1 := by
        simp only [runOps]
      by_cases h : (applyOp st now op).nextId = st.nextId
      · have h2 : (runOps st ((now, op) :: rest)).2 = (runOps (applyOp st now op) rest).2 := by
          simp only [runOps, if_pos h, List.nil_append]
        refine ⟨?_, ?_, ?_⟩
        · rw [h1, ← h]
          exact hmono
        · intro i hi
          rw [h2] at hi
          obtain ⟨hle, hlt⟩ := hids i hi
          rw [h1]
          exact ⟨le_trans (le_of_eq h.symm) hle, hlt⟩
        · rw [h2]
          exact hpw
      · have hsucc : (applyOp st now op).nextId = st.nextId + 1 :=
          (applyOp_nextId_cases st now op).resolve_left h
        have h2 : (runOps st ((now, op) :: rest)).2
            = st.nextId :: (runOps (applyOp st now op) rest).2 := by
          simp only [runOps, if_neg h, List.singleton_append]
        have hstep : st.nextId < (applyOp st now op).nextId := by
          rw [hsucc]
          exact lt_add_one _
        refine ⟨?_, ?_, ?_⟩
        · rw [h1]
          exact le_trans (le_of_lt hstep) hmono
        · intro i hi
          rw [h2] at hi
          rw [h1]
          rcases List.mem_cons.mp hi with rfl | hi'
          · exact ⟨le_rfl, lt_of_lt_of_le hstep hmono⟩
          · obtain ⟨hle, hlt⟩ := hids i hi'
            exact ⟨le_trans (le_of_lt hstep) hle, hlt⟩
        · rw [h2]
          refine List.pairwise_cons.mpr ⟨?_, hpw⟩
          intro b hb
          exact lt_of_lt_of_le hstep (hids b hb).1

/-- Claim C9: within a single process lifetime, item ids are unique,
monotonically assigned and never reused — along any run of operations each
successful add assigns an id strictly greater than every id assigned
earlier, every assigned id stays below the final `nextId`, no operation
decreases `nextId`, and `clear` empties the item list while leaving
`nextId` unchanged. -/
theorem C9_ids_monotone_never_reused (st : ServerState) (ops : List (ℚ × Op)) :
    List.Pairwise (fun a b => a < b) (runOps st ops).2
    ∧ st.nextId ≤ (runOps st ops).1.nextId
    ∧ (∀ i ∈ (runOps st ops).2, i < (runOps st ops).1.nextId)
    ∧ (∀ (s : ServerState) (t : ℚ), applyOp s t Op.clear = ⟨[], s.nextId⟩) :=
  ⟨(runOps_spec ops st).2.2, (runOps_spec ops st).1,
   fun i hi => ((runOps_spec ops st).2.1 i hi).2,
   fun _ _ => rfl⟩

/-- Witness for C9: a concrete run — add, clear, add — assigns ids 1 then 2,
in strictly increasing order, both below the final counter. -/
theorem C9_ids_monotone_never_reused_witness :
    (1 : ℚ) < (runOps ⟨[], 1⟩
        [(0, Op.add ⟨"s1", "A", "#1"⟩ ⟨2, 3, 1, 0, none⟩),
         (5, Op.clear),
         (9, Op.add ⟨"s1", "A", "#1"⟩ ⟨2, 3, 1, 0, none⟩)]).1.nextId :=
  (C9_ids_monotone_never_reused ⟨[], 1⟩
      [(0, Op.add ⟨"s1", "A", "#1"⟩ ⟨2, 3, 1, 0, none⟩),
       (5, Op.clear),
       (9, Op.add ⟨"s1", "A", "#1"⟩ ⟨2, 3, 1, 0, none⟩)]).2.2.1 1 (by decide)

/-- Witness for C10 at a concrete load time. -/
theorem C10_load_failure_overwrites_file_witness :
    loadData none 12345 = (⟨[], 1⟩, [Emission.save ⟨[], 1⟩]) :=
  C10_load_failure_overwrites_file 12345

end CountdownServer
